import Mathlib

/-!
Verification of the uptix dependency locking engine.

Rust strings are modelled as lists of characters (`Str`); machine effects
(network requests, subprocess invocations) are modelled as oracle records
passed explicitly; fallible Rust functions return `Except`/`Option`, and
functions that may `panic!` return `RustResult`.
-/

set_option maxHeartbeats 1000000

namespace Uptix

/-- Rust `String`, modelled as a list of characters. -/
abbrev Str := List Char

/-- Conversion from Lean string literals into the model's strings. -/
def str (s : String) : Str := s.toList

/-- Rust `str::split(sep)`: split at every occurrence of a separator
character; the result is never empty. -/
def splitOnChar (sep : Char) : Str → List Str
  | [] => [[]]
  | c :: rest =>
    if c = sep then [] :: splitOnChar sep rest
    else
      match splitOnChar sep rest with
      | [] => [[c]]
      | s :: ss => (c :: s) :: ss

/-- The closed error classification of `src/error.rs` (payloads abbreviated to
strings; the diagnostic-rendering fields are presentation-only). -/
inductive Error where
  | registryError (msg : Str)
  | requestError (msg : Str)
  | urlConstructionError (msg : Str)
  | jsonParsingError (msg : Str)
  | ioError (msg : Str)
  | nixParsingError (msg : Str)
  | unexpectedArgument (function : Str) (expected_type : Str)
  | stringError (msg : Str)
deriving DecidableEq

/-- Outcome of a Rust computation that may succeed, return an `Err`, or
`panic!`/`expect`-abort the process. -/
inductive RustResult (α : Type) where
  | ok (val : α)
  | err (e : Error)
  | panicked (msg : Str)
deriving DecidableEq

/-- A JSON value (`serde_json::Value`). Objects keep their fields as an
association list; lookup takes the first binding. -/
inductive Json where
  | null
  | bool (b : Bool)
  | num (n : Int)
  | strVal (s : Str)
  | arr (elems : List Json)
  | obj (fields : List (Str × Json))

/-- Metadata of a lock entry (`DependencyMetadata` in `src/deps/mod.rs`).
The `timestamp` field is Modelled from the spec: the struct declaration in
`deps/mod.rs` predates it, but `docker.rs` constructs it and `main.rs` reads
it, and the spec lists an "optional timestamp" among entry metadata. -/
structure DependencyMetadata where
  name : Str
  selected_version : Option Str
  resolved_version : Option Str
  timestamp : Option Str
  dep_type : Str
  description : Str

/-- A lock entry: metadata plus an opaque kind-specific JSON payload. -/
structure LockEntry where
  metadata : DependencyMetadata
  lock : Json

/-! ## Container image reference grammar

`src/deps/docker.rs` decomposes an image reference with the regex

  `^(?:([a-z0-9.-]+)/)?([a-z0-9-]+(?:/[a-z0-9-]+)*):?([a-z0-9.-]+)?$`

Group 1 is an optional registry-or-namespace segment, group 2 the
slash-separated repository path, group 3 the optional tag. The matcher below
implements exactly this pattern with the regex crate's leftmost-greedy
capture semantics: the optional group 1 is attempted first (its character
class excludes `/`, so the only candidate is the maximal run of class-1
characters followed by `/`), and group 2 consumes path segments greedily
(backtracking can never turn a failed greedy parse into a success here,
because every character admissible in a segment is also admissible in a tag).
-/

/-- Character class `[a-z0-9.-]` (regex groups 1 and 3). -/
def isC1 (c : Char) : Bool :=
  ('a' ≤ c && c ≤ 'z') || ('0' ≤ c && c ≤ '9') || c == '.' || c == '-'

/-- Character class `[a-z0-9-]` (regex group 2 path segments). -/
def isC2 (c : Char) : Bool :=
  ('a' ≤ c && c ≤ 'z') || ('0' ≤ c && c ≤ '9') || c == '-'

/-- Greedy match of `[a-z0-9-]+(?:/[a-z0-9-]+)*` against a prefix of the
input, returning the consumed prefix and the remainder. The fuel argument
(instantiated with the input length) only serves termination. -/
def segsFuel : Nat → Str → Option (Str × Str)
  | 0, _ => none
  | fuel + 1, l =>
    let seg := l.takeWhile isC2
    let rest := l.dropWhile isC2
    if seg = [] then none
    else
      match rest with
      | '/' :: r2 =>
        match segsFuel fuel r2 with
        | some (more, rest') => some (seg ++ '/' :: more, rest')
        | none => some (seg, rest)
      | _ => some (seg, rest)

/-- Greedy match of the repository-path part of the image regex. -/
def parseSegs (l : Str) : Option (Str × Str) := segsFuel l.length l

/-- Match of the trailing `:?([a-z0-9.-]+)?$` of the image regex, returning
the optional tag capture. -/
def tagTail : Str → Option (Option Str)
  | [] => some none
  | ':' :: rest =>
    if rest = [] then some none
    else if rest.all isC1 then some (some rest) else none
  | l => if l.all isC1 then some (some l) else none

/-- Match of `([a-z0-9-]+(?:/[a-z0-9-]+)*):?([a-z0-9.-]+)?$`, i.e. the image
regex with group 1 absent. -/
def dockerMatchNoReg (l : Str) : Option (Str × Option Str) :=
  match parseSegs l with
  | none => none
  | some (g2, rest) =>
    match tagTail rest with
    | none => none
    | some g3 => some (g2, g3)

/-- Full capture extraction for the image regex: `(group1?, group2, group3?)`.
The optional group 1 (a class-1 run followed by `/`) is preferred when the
remainder still matches; otherwise the whole input must match without it. -/
def dockerCaptures (l : Str) : Option (Option Str × Str × Option Str) :=
  let run := l.takeWhile isC1
  let rest := l.dropWhile isC1
  let attempt : Option (Option Str × Str × Option Str) :=
    if run = [] then none
    else
      match rest with
      | '/' :: r2 => (dockerMatchNoReg r2).map fun p => (some run, p.1, p.2)
      | _ => none
  match attempt with
  | some res => some res
  | none => (dockerMatchNoReg l).map fun p => ((none : Option Str), p.1, p.2)

/-- The container-image dependency (`Docker` in `src/deps/docker.rs`). -/
structure Docker where
  name : Str
  registry : Str
  image : Str
  tag : Str
  use_https : Bool
deriving DecidableEq

def DEFAULT_REGISTRY : Str := str "registry-1.docker.io"

def DEFAULT_TAG : Str := str "latest"

/-- `Docker::from`: parse an image reference. A string the regex rejects
makes the Rust code `expect`-panic ("Malformatted Docker image"); a dotted
first segment is taken as the registry, a dot-free one as a namespace. -/
def dockerFrom (text : Str) : RustResult Docker :=
  match dockerCaptures text with
  | none => .panicked (str "Malformatted Docker image")
  | some (registry_part, image_part, tag_part) =>
    let name := text
    let ri : Str × Str :=
      match registry_part with
      | some reg =>
        if reg.contains '.' then (reg, image_part)
        else (DEFAULT_REGISTRY, reg ++ '/' :: image_part)
      | none => (DEFAULT_REGISTRY, image_part)
    let tag := tag_part.getD DEFAULT_TAG
    .ok { name := name, registry := ri.1, image := ri.2, tag := tag,
          use_https := true }

/-- `Docker::key`: the raw user-supplied name. -/
def Docker.key (d : Docker) : Str := d.name

/-- `Docker::matches`: exact full name, or bare repository name for a
default-registry image when the pattern carries no tag. -/
def Docker.matches (d : Docker) (pattern : Str) : Bool :=
  d.name == pattern ||
    (d.registry == DEFAULT_REGISTRY && d.image == pattern
      && !(pattern.contains ':'))

/-- The repository path used at resolution time (`latest_digest` and
`fetch_image_metadata`): default-registry single-segment repositories get the
`library/` path prepended. -/
def Docker.resolutionImageName (d : Docker) : Str :=
  if d.registry == DEFAULT_REGISTRY && !(d.image.contains '/') then
    str "library/" ++ d.image
  else d.image

/-- `Docker::from_lock_entry`: rebuild from `metadata.name` and the selected
version (the tag); absent tag yields `None`. A malformed `name:tag` string
propagates `Docker::from`'s panic. -/
def Docker.fromLockEntry (entry : LockEntry) : RustResult (Option Docker) :=
  match entry.metadata.selected_version with
  | none => .ok none
  | some tag =>
    match dockerFrom (entry.metadata.name ++ ':' :: tag) with
    | .panicked m => .panicked m
    | .err _ => .ok none
    | .ok d => .ok (some d)

/-! ## Docker resolution (`lock_with_metadata`)

Network interactions are modelled by oracles: each field is the outcome the
registry returns for the corresponding request of `docker.rs`. -/

/-- Partial model of a Docker image manifest as `fetch_image_metadata`
consumes it: a Schema2 manifest exposes its config-blob digest, a manifest
list its per-platform manifest digests; anything else is opaque. -/
inductive Manifest where
  | s2 (configDigest : Str)
  | ml (manifests : List Str)
  | other

/-- Partial representation of a Docker image config blob (`ImageConfig`). -/
structure ImageConfig where
  created : Option Str
  labels : Option (List (Str × Str))

/-- Field lookup in a JSON object (first binding wins, as in `serde_json`). -/
def jsonField (fields : List (Str × Json)) (k : Str) : Option Json :=
  (fields.find? fun f => f.1 == k).map fun f => f.2

/-- Lookup in a string-to-string map (`HashMap::get`). -/
def lookupLabel (labels : List (Str × Str)) (k : Str) : Option Str :=
  (labels.find? fun l => l.1 == k).map fun l => l.2

/-- Decoder for the config blob (`serde_json::from_slice::<ImageConfig>`):
both fields are `Option`s, so they may be absent or `null`; a present field
of the wrong type is a parse error, and a non-object blob is a parse error. -/
def decodeImageConfig (j : Json) : Option ImageConfig :=
  match j with
  | .obj fields =>
    let created? : Option (Option Str) :=
      match jsonField fields (str "created") with
      | none => some none
      | some .null => some none
      | some (.strVal s) => some (some s)
      | some _ => none
    let labels? : Option (Option (List (Str × Str))) :=
      match jsonField fields (str "config") with
      | none => some none
      | some .null => some none
      | some (.obj cfgFields) =>
        match jsonField cfgFields (str "Labels") with
        | none => some none
        | some .null => some none
        | some (.obj labelFields) =>
          (labelFields.foldr
            (fun f acc =>
              match acc, f.2 with
              | some l, .strVal v => some ((f.1, v) :: l)
              | _, _ => none)
            (some [])).map some
        | some _ => none
      | some _ => none
    match created?, labels? with
    | some c, some l => some { created := c, labels := l }
    | _, _ => none
  | _ => none

/-- Registry responses consumed by `fetch_image_metadata`, in request order:
client construction and authentication, manifest fetch, the second client and
platform-manifest fetch used for manifest lists, the third client and the
config-blob fetch (the blob already paired with its JSON parse input). -/
structure MetadataNet where
  client1 : Except Error Unit
  manifest : Except Error Manifest
  client2 : Except Error Unit
  platformManifest : Except Error Manifest
  client3 : Except Error Unit
  blob : Except Error Json

/-- `Docker::fetch_image_metadata`: best-effort enrichment returning the
friendly version and creation timestamp. Every failure along the way
produces `Ok((None, None))`; the function never returns an error. -/
def fetchImageMetadata (d : Docker) (net : MetadataNet) :
    Except Error (Option Str × Option Str) :=
  let _image_name := d.resolutionImageName
  match net.client1 with
  | .error _ => .ok (none, none)
  | .ok _ =>
    match net.manifest with
    | .error _ => .ok (none, none)
    | .ok manifest =>
      let configDigest? : Except (Option Str × Option Str) Str :=
        match manifest with
        | .s2 cd => .ok cd
        | .ml manifests =>
          match manifests.head? with
          | none => .error (none, none)
          | some _platformDigest =>
            match net.client2 with
            | .error _ => .error (none, none)
            | .ok _ =>
              match net.platformManifest with
              | .error _ => .error (none, none)
              | .ok pm =>
                match pm with
                | .s2 cd => .ok cd
                | _ => .error (none, none)
        | .other => .error (none, none)
      match configDigest? with
      | .error r => .ok r
      | .ok _config_digest =>
        match net.client3 with
        | .error _ => .ok (none, none)
        | .ok _ =>
          match net.blob with
          | .error _ => .ok (none, none)
          | .ok blobJson =>
            match decodeImageConfig blobJson with
            | none => .ok (none, none)
            | some config =>
              let timestamp := config.created
              let friendly_version :=
                (match config.labels with
                 | some labels =>
                   match lookupLabel labels (str "org.opencontainers.image.version") with
                   | some v => some v
                   | none => lookupLabel labels (str "version")
                 | none => none).orElse
                  (fun _ =>
                    timestamp.bind fun ts => (splitOnChar 'T' ts).head?)
              .ok (friendly_version, timestamp)

/-- All registry responses a single `Docker::lock_with_metadata` call can
consume: the digest lookup (`latest_digest`) plus the enrichment requests. -/
structure DockerNet where
  latestDigest : Except Error (Option Str)
  meta : MetadataNet

/-- `Docker::lock_with_metadata`: fetch the digest (failing the run when it
is absent or errors), enrich best-effort, and package the lock entry. The
metadata name is the parsed `image` field, not the raw name. -/
def Docker.lockWithMetadata (d : Docker) (net : DockerNet) :
    Except Error LockEntry :=
  match net.latestDigest with
  | .error e => .error e
  | .ok none =>
    .error (.stringError
      (str "Could not find digest for image " ++ d.name ++ str " on registry"))
  | .ok (some digest) =>
    match fetchImageMetadata d net.meta with
    | .error e => .error e
    | .ok (friendly_version_opt, timestamp) =>
      let resolved_version := friendly_version_opt.getD digest
      .ok { metadata :=
              { name := d.image
                selected_version := some d.tag
                resolved_version := some resolved_version
                timestamp := timestamp
                dep_type := str "docker"
                description :=
                  str "Docker image " ++ d.image ++ ':' :: d.tag
                    ++ str " from " ++ d.registry }
            lock := .strVal digest }

/-! ## Source-control dependencies (`src/deps/github/`) -/

/-- `GitHubLock` (`src/deps/github/mod.rs`): the kind-specific lock payload
shared by the branch and release variants. -/
structure GitHubLock where
  owner : Str
  repo : Str
  rev : Str
  sha256 : Str
  fetchSubmodules : Bool
  deepClone : Bool
  leaveDotGit : Bool
deriving DecidableEq

/-- `serde_json::to_value::<GitHubLock>`: serialize to a JSON object. -/
def GitHubLock.toJson (g : GitHubLock) : Json :=
  .obj [(str "owner", .strVal g.owner),
        (str "repo", .strVal g.repo),
        (str "rev", .strVal g.rev),
        (str "sha256", .strVal g.sha256),
        (str "fetchSubmodules", .bool g.fetchSubmodules),
        (str "deepClone", .bool g.deepClone),
        (str "leaveDotGit", .bool g.leaveDotGit)]

/-- `serde_json::from_value::<GitHubLock>`: every field is required and must
have the right type; extra fields are ignored; non-objects fail. -/
def decodeGitHubLock (j : Json) : Option GitHubLock :=
  match j with
  | .obj fields => do
    let owner ← match jsonField fields (str "owner") with
      | some (.strVal s) => some s | _ => none
    let repo ← match jsonField fields (str "repo") with
      | some (.strVal s) => some s | _ => none
    let rev ← match jsonField fields (str "rev") with
      | some (.strVal s) => some s | _ => none
    let sha256 ← match jsonField fields (str "sha256") with
      | some (.strVal s) => some s | _ => none
    let fetchSubmodules ← match jsonField fields (str "fetchSubmodules") with
      | some (.bool b) => some b | _ => none
    let deepClone ← match jsonField fields (str "deepClone") with
      | some (.bool b) => some b | _ => none
    let leaveDotGit ← match jsonField fields (str "leaveDotGit") with
      | some (.bool b) => some b | _ => none
    some { owner, repo, rev, sha256, fetchSubmodules, deepClone, leaveDotGit }
  | _ => none

/-- `github::flags`: compact flag suffix used in source-control keys — one
reserved letter per flag that is effectively set (`unwrap_or(false)`). -/
def githubFlags (fetch_submodules deep_clone leave_dot_git : Option Bool) : Str :=
  (if fetch_submodules.getD false then str "f" else [])
    ++ (if deep_clone.getD false then str "d" else [])
    ++ (if leave_dot_git.getD false then str "l" else [])

/-- The branch dependency (`GitHubBranch` in `src/deps/github/branch.rs`). -/
structure GitHubBranch where
  owner : Str
  repo : Str
  branch : Str
  fetchSubmodules : Option Bool
  deepClone : Option Bool
  leaveDotGit : Option Bool
  override_scheme : Option Str
  override_domain : Option Str
  override_nix_sha256 : Option Str
deriving DecidableEq

/-- `GitHubBranch::key`. -/
def GitHubBranch.key (b : GitHubBranch) : Str :=
  str "$GITHUB_BRANCH$:" ++ b.owner ++ str "/" ++ b.repo ++ str ":"
    ++ b.branch ++ str "$"
    ++ githubFlags b.fetchSubmodules b.deepClone b.leaveDotGit

/-- Modelled from the spec: `GitHubBranch::matches` is required by the
`Lockable` trait and called from `main.rs`, but `branch.rs` under `src/`
holds an older trait implementation without it. Spec §4.5: "source-control
branches match on exact internal key only". -/
def GitHubBranch.matches (b : GitHubBranch) (pattern : Str) : Bool :=
  pattern == b.key

/-- Modelled from the spec: `GitHubBranch::from_lock_entry` is dispatched to
from `deps/mod.rs` but absent from `src/` (`branch.rs` holds an older trait
implementation). Spec §4.2: reconstruction rebuilds a variant purely from a
stored Lock Entry; the branch name is the user-selected version and the
payload is the shared `GitHubLock` object, as in the release variant. -/
def GitHubBranch.fromLockEntry (entry : LockEntry) : Option GitHubBranch :=
  entry.metadata.selected_version.bind fun branch =>
    (decodeGitHubLock entry.lock).map fun lock_data =>
      { owner := lock_data.owner
        repo := lock_data.repo
        branch := branch
        fetchSubmodules := some lock_data.fetchSubmodules
        deepClone := some lock_data.deepClone
        leaveDotGit := some lock_data.leaveDotGit
        override_scheme := none
        override_domain := none
        override_nix_sha256 := none }

/-- The release dependency (`GitHubRelease` in `src/deps/github/release.rs`). -/
structure GitHubRelease where
  owner : Str
  repo : Str
  fetchSubmodules : Option Bool
  deepClone : Option Bool
  leaveDotGit : Option Bool
  override_scheme : Option Str
  override_domain : Option Str
  override_nix_sha256 : Option Str
deriving DecidableEq

/-- `GitHubRelease::key`. -/
def GitHubRelease.key (r : GitHubRelease) : Str :=
  str "$GITHUB_RELEASE$:" ++ r.owner ++ str "/" ++ r.repo ++ str "$"
    ++ githubFlags r.fetchSubmodules r.deepClone r.leaveDotGit

/-- `GitHubRelease::matches`: exact internal key, or `owner/repo` when the
pattern carries no colon and splits into exactly two slash segments. -/
def GitHubRelease.matches (r : GitHubRelease) (pattern : Str) : Bool :=
  if pattern == r.key then true
  else if !(pattern.contains ':') && pattern.contains '/' then
    match splitOnChar '/' pattern with
    | [a, b] => a == r.owner && b == r.repo
    | _ => false
  else false

/-- `GitHubRelease::from_lock_entry`: rebuild purely from the lock payload;
the stored booleans come back as explicit `Some` flags, overrides reset. -/
def GitHubRelease.fromLockEntry (entry : LockEntry) : Option GitHubRelease :=
  (decodeGitHubLock entry.lock).map fun lock_data =>
    { owner := lock_data.owner
      repo := lock_data.repo
      fetchSubmodules := some lock_data.fetchSubmodules
      deepClone := some lock_data.deepClone
      leaveDotGit := some lock_data.leaveDotGit
      override_scheme := none
      override_domain := none
      override_nix_sha256 := none }

/-- External interactions of `GitHubRelease::lock_with_metadata`: the
"latest release" API response (its `tag_name`) and the result of the
`nix-prefetch-git` subprocess. -/
structure GitHubNet where
  latestReleaseTag : Except Error Str
  prefetchSha256 : Except Error Str

/-- `GitHubRelease::lock_with_metadata`: resolve the latest release tag,
hash the repository (unless a pre-supplied hash override skips the
subprocess), and package payload plus metadata. -/
def GitHubRelease.lockWithMetadata (r : GitHubRelease) (net : GitHubNet) :
    Except Error LockEntry :=
  match net.latestReleaseTag with
  | .error e => .error e
  | .ok rev =>
    let sha256? : Except Error Str :=
      match r.override_nix_sha256 with
      | some s => .ok s
      | none => net.prefetchSha256
    match sha256? with
    | .error e => .error e
    | .ok sha256 =>
      let lock_data : GitHubLock :=
        { owner := r.owner
          repo := r.repo
          rev := rev
          sha256 := sha256
          fetchSubmodules := r.fetchSubmodules.getD false
          deepClone := r.deepClone.getD false
          leaveDotGit := r.leaveDotGit.getD false }
      let metadata : DependencyMetadata :=
        { name := r.owner ++ str "/" ++ r.repo
          selected_version := some (str "latest")
          resolved_version := some rev
          timestamp := none
          dep_type := str "github-release"
          description := str "GitHub release from " ++ r.owner ++ str "/" ++ r.repo }
      .ok { metadata := metadata, lock := lock_data.toJson }

/-! ## The dependency union (`src/deps/mod.rs`) -/

/-- The closed tagged union over the three dependency kinds. -/
inductive Dependency where
  | docker (d : Docker)
  | gitHubBranch (b : GitHubBranch)
  | gitHubRelease (r : GitHubRelease)
deriving DecidableEq

/-- `Dependency::key`: dispatch to the variant. -/
def Dependency.key : Dependency → Str
  | .docker d => d.key
  | .gitHubBranch b => b.key
  | .gitHubRelease r => r.key

/-- `Dependency::matches`: dispatch to the variant. -/
def Dependency.matches : Dependency → Str → Bool
  | .docker d, pattern => d.matches pattern
  | .gitHubBranch b, pattern => b.matches pattern
  | .gitHubRelease r, pattern => r.matches pattern

/-- `Dependency::from_lock_entry`: dispatch on `metadata.dep_type`; a failed
variant reconstruction becomes a `StringError`, an unrecognized tag an
"Unknown dependency type" error. A docker reconstruction may panic. -/
def Dependency.fromLockEntry (entry : LockEntry) : RustResult Dependency :=
  if entry.metadata.dep_type == str "docker" then
    match Docker.fromLockEntry entry with
    | .panicked m => .panicked m
    | .err e => .err e
    | .ok (some d) => .ok (.docker d)
    | .ok none =>
      .err (.stringError
        (str "Failed to reconstruct Docker dependency from lock entry"))
  else if entry.metadata.dep_type == str "github-branch" then
    match GitHubBranch.fromLockEntry entry with
    | some b => .ok (.gitHubBranch b)
    | none =>
      .err (.stringError
        (str "Failed to reconstruct GitHubBranch dependency from lock entry"))
  else if entry.metadata.dep_type == str "github-release" then
    match GitHubRelease.fromLockEntry entry with
    | some r => .ok (.gitHubRelease r)
    | none =>
      .err (.stringError
        (str "Failed to reconstruct GitHubRelease dependency from lock entry"))
  else
    .err (.stringError
      (str "Unknown dependency type: " ++ entry.metadata.dep_type))

/-! ## The lock store and the update command (`src/main.rs`)

The lock file is a `BTreeMap<String, LockEntry>`, modelled as an
association list kept sorted by key; `insert` replaces an existing binding.
File-system state is passed in explicitly: `none` means the lock file does
not exist, `some (.error _)` that it exists but does not parse as a lock
file, `some (.ok lf)` the parsed store. Resolution (the only network step)
is an oracle `resolve`. -/

/-- The persisted lock store: key-sorted association list. -/
abbrev LockFileT := List (Str × LockEntry)

/-- Lexicographic order on strings (the `BTreeMap` key order). -/
def strLt : Str → Str → Bool
  | [], [] => false
  | [], _ :: _ => true
  | _ :: _, [] => false
  | a :: as, b :: bs => if a < b then true else if b < a then false else strLt as bs

/-- `BTreeMap::insert`: ordered insert, replacing an existing binding. -/
def lockInsert (k : Str) (v : LockEntry) : LockFileT → LockFileT
  | [] => [(k, v)]
  | (k1, v1) :: rest =>
    if k == k1 then (k, v) :: rest
    else if strLt k k1 then (k, v) :: (k1, v1) :: rest
    else (k1, v1) :: lockInsert k v rest

/-- `BTreeMap::get`. -/
def lockLookup (k : Str) : LockFileT → Option LockEntry
  | [] => none
  | (k1, v1) :: rest => if k == k1 then some v1 else lockLookup k rest

/-- `validate_lock_file`: called when the lock file exists; a parse failure
or a first entry with an empty `dep_type` aborts the process with exit
code 1 before anything else happens. -/
def validatePasses : Option (Except Str LockFileT) → Bool
  | none => true
  | some (.error _) => false
  | some (.ok lf) =>
    match lf with
    | [] => true
    | (_, e) :: _ => !(e.metadata.dep_type == [])

/-- Observable outcome of one `update` run: whether validation aborted the
process, whether the "Dependency not found" message was printed, the key
printed on a resolution failure, and the store written to `uptix.lock`
(`none` when no file was written). -/
structure UpdateOutcome where
  exitedWithError : Bool
  notFound : Bool
  failedKey : Option Str
  written : Option LockFileT

/-- The resolution loop of `update_command_in_dir`: resolve each dependency
in order, merging into the store; the first failure stops the run and
reports that dependency's key. -/
def resolveLoop (resolve : Dependency → Except Error LockEntry) :
    List Dependency → LockFileT → Except Str LockFileT
  | [], lf => .ok lf
  | d :: rest, lf =>
    match resolve d with
    | .error _ => .error d.key
    | .ok entry => resolveLoop resolve rest (lockInsert d.key entry lf)

/-- `update_command_in_dir`: validate an existing lock file, filter the
discovered declarations by the optional pattern (an empty filter result is
the non-fatal "not found" outcome), start from the loaded store only for a
selective update, resolve, and write the merged store unless a resolution
failed. -/
def updateCommandInDir (discovered : List Dependency)
    (lockState : Option (Except Str LockFileT)) (dependencyArg : Option Str)
    (resolve : Dependency → Except Error LockEntry) : UpdateOutcome :=
  if !(validatePasses lockState) then
    { exitedWithError := true, notFound := false, failedKey := none,
      written := none }
  else
    let depsToUpdate : Option (List Dependency) :=
      match dependencyArg with
      | some dep_pattern =>
        let filtered := discovered.filter fun d => d.matches dep_pattern
        if filtered = [] then none else some filtered
      | none => some discovered
    match depsToUpdate with
    | none =>
      { exitedWithError := false, notFound := true, failedKey := none,
        written := none }
    | some dependencies_to_update =>
      let lock_file : LockFileT :=
        match dependencyArg, lockState with
        | some _, some st => match st with | .ok lf => lf | .error _ => []
        | _, _ => []
      match resolveLoop resolve dependencies_to_update lock_file with
      | .error k =>
        { exitedWithError := false, notFound := false, failedKey := some k,
          written := none }
      | .ok lf =>
        { exitedWithError := false, notFound := false, failedKey := none,
          written := some lf }

/-! ## Derived predicates and concrete instances used in the theorems -/

/-- Well-formed repository paths of the image grammar: one or more
slash-separated nonempty segments over `[a-z0-9-]`. -/
inductive IsImageStr : Str → Prop
  | single (s : Str) (hne : s ≠ []) (hc : ∀ c ∈ s, isC2 c = true) :
      IsImageStr s
  | cons (s : Str) (rest : Str) (hne : s ≠ []) (hc : ∀ c ∈ s, isC2 c = true)
      (hr : IsImageStr rest) : IsImageStr (s ++ '/' :: rest)

/-- A failure at any step of the metadata-enrichment path of
`fetch_image_metadata` that control flow can actually reach: client
construction or manifest fetch, an unusable manifest, a manifest list whose
platform follow-up fails, the config-blob fetch, or its JSON parse. -/
def enrichmentFails (net : MetadataNet) : Prop :=
  (∃ e, net.client1 = .error e) ∨
  (∃ e, net.manifest = .error e) ∨
  net.manifest = .ok .other ∨
  (∃ mans, net.manifest = .ok (.ml mans) ∧
    (mans = [] ∨ (∃ e, net.client2 = .error e) ∨
     (∃ e, net.platformManifest = .error e) ∨
     net.platformManifest = .ok .other ∨
     (∃ ms, net.platformManifest = .ok (.ml ms)))) ∨
  (∃ e, net.client3 = .error e) ∨
  (∃ e, net.blob = .error e) ∨
  (∃ b, net.blob = .ok b ∧ decodeImageConfig b = none)

/-- The parsed form of `postgres:15`. -/
def postgres15 : Docker :=
  { name := str "postgres:15", registry := DEFAULT_REGISTRY,
    image := str "postgres", tag := str "15", use_https := true }

/-- A metadata oracle in which every enrichment request fails. -/
def failingMetaNet : MetadataNet :=
  { client1 := .error (.stringError []), manifest := .error (.stringError []),
    client2 := .error (.stringError []),
    platformManifest := .error (.stringError []),
    client3 := .error (.stringError []), blob := .error (.stringError []) }

/-- A docker oracle yielding a given digest with failing enrichment. -/
def digestNet (digest : Str) : DockerNet :=
  { latestDigest := .ok (some digest), meta := failingMetaNet }

/-- The parsed form of the registry-qualified name `gcr.io/user/app:v1`. -/
def gcrDocker : Docker :=
  { name := str "gcr.io/user/app:v1", registry := str "gcr.io",
    image := str "user/app", tag := str "v1", use_https := true }

/-- The lock entry `gcr.io/user/app:v1` resolves to under `digestNet`:
its metadata name is the registry-stripped `image` field. -/
def gcrEntry : LockEntry :=
  { metadata :=
      { name := str "user/app", selected_version := some (str "v1"),
        resolved_version := some (str "sha256:d1"), timestamp := none,
        dep_type := str "docker",
        description := str "Docker image user/app:v1 from gcr.io" },
    lock := .strVal (str "sha256:d1") }

/-- What `from_lock_entry` rebuilds from `gcrEntry`: a default-registry
image named `user/app:v1`. -/
def gcrReconstructed : Docker :=
  { name := str "user/app:v1", registry := DEFAULT_REGISTRY,
    image := str "user/app", tag := str "v1", use_https := true }

/-- The parsed form of the tag-less name `redis`. -/
def redisDocker : Docker :=
  { name := str "redis", registry := DEFAULT_REGISTRY, image := str "redis",
    tag := str "latest", use_https := true }

/-- The lock entry `redis` resolves to under `digestNet`. -/
def redisEntry : LockEntry :=
  { metadata :=
      { name := str "redis", selected_version := some (str "latest"),
        resolved_version := some (str "sha256:d2"), timestamp := none,
        dep_type := str "docker",
        description :=
          str "Docker image redis:latest from registry-1.docker.io" },
    lock := .strVal (str "sha256:d2") }

/-- What `from_lock_entry` rebuilds from `redisEntry`: the tag made
explicit, so the key becomes `redis:latest`. -/
def redisReconstructed : Docker :=
  { name := str "redis:latest", registry := DEFAULT_REGISTRY,
    image := str "redis", tag := str "latest", use_https := true }

/-- A branch declaration with all optional fields unset. -/
def branchMain : GitHubBranch :=
  { owner := str "luizribeiro", repo := str "uptix", branch := str "main",
    fetchSubmodules := none, deepClone := none, leaveDotGit := none,
    override_scheme := none, override_domain := none,
    override_nix_sha256 := none }

/-- `branchMain` with `fetchSubmodules` explicitly false instead of unset. -/
def branchMainExplicit : GitHubBranch :=
  { branchMain with fetchSubmodules := some false }

/-- `branchMain` with a pre-supplied content hash override. -/
def branchMainOverride : GitHubBranch :=
  { branchMain with override_nix_sha256 := some (str "somesha") }

/-- A docker lock entry whose empty metadata name makes the reconstructed
`:latest` reference fail the image grammar. -/
def badDockerEntry : LockEntry :=
  { metadata :=
      { name := [], selected_version := some (str "latest"),
        resolved_version := none, timestamp := none,
        dep_type := str "docker", description := [] },
    lock := .strVal [] }

/-- A lock entry for a `mysql:8` image as stored by a previous run. -/
def mysqlEntry : LockEntry :=
  { metadata :=
      { name := str "mysql", selected_version := some (str "8"),
        resolved_version := some (str "sha256:d3"), timestamp := none,
        dep_type := str "docker",
        description := str "Docker image mysql:8 from registry-1.docker.io" },
    lock := .strVal (str "sha256:d3") }

/-- A lock store holding only the `mysql:8` entry. -/
def mysqlStore : LockFileT := [(str "mysql:8", mysqlEntry)]

/-- What `from_lock_entry` rebuilds from `mysqlEntry`. -/
def mysqlReconstructed : Docker :=
  { name := str "mysql:8", registry := DEFAULT_REGISTRY,
    image := str "mysql", tag := str "8", use_https := true }

/-- A release declaration with unset flags and a pre-supplied hash. -/
def releaseDecl : GitHubRelease :=
  { owner := str "luizribeiro", repo := str "uptix", fetchSubmodules := none,
    deepClone := none, leaveDotGit := none, override_scheme := none,
    override_domain := none,
    override_nix_sha256 := some (str "1vxzg4wdjvfnc7fjqr9flza5y7gh69w0bpf") }

/-- A GitHub oracle answering `v0.1.0` for the latest release. -/
def releaseNet : GitHubNet :=
  { latestReleaseTag := .ok (str "v0.1.0"),
    prefetchSha256 := .error (.stringError []) }

/-- The lock entry `releaseDecl` resolves to under `releaseNet` (the hash
override makes the subprocess unnecessary). -/
def releaseEntry : LockEntry :=
  { metadata :=
      { name := str "luizribeiro/uptix",
        selected_version := some (str "latest"),
        resolved_version := some (str "v0.1.0"), timestamp := none,
        dep_type := str "github-release",
        description := str "GitHub release from luizribeiro/uptix" },
    lock := GitHubLock.toJson
      { owner := str "luizribeiro", repo := str "uptix",
        rev := str "v0.1.0",
        sha256 := str "1vxzg4wdjvfnc7fjqr9flza5y7gh69w0bpf",
        fetchSubmodules := false, deepClone := false, leaveDotGit := false } }

/-- What `from_lock_entry` rebuilds from `releaseEntry`: the stored
booleans come back as explicitly-false flags. -/
def releaseReconstructed : GitHubRelease :=
  { owner := str "luizribeiro", repo := str "uptix",
    fetchSubmodules := some false, deepClone := some false,
    leaveDotGit := some false, override_scheme := none,
    override_domain := none, override_nix_sha256 := none }

end Uptix

namespace Uptix

example : dockerFrom (str "postgres:15") =
    .ok { name := str "postgres:15", registry := str "registry-1.docker.io",
          image := str "postgres", tag := str "15", use_https := true } := by
  decide

example : dockerFrom (str "redis") =
    .ok { name := str "redis", registry := str "registry-1.docker.io",
          image := str "redis", tag := str "latest", use_https := true } := by
  decide

example : dockerFrom (str "homeassistant/home-assistant:stable") =
    .ok { name := str "homeassistant/home-assistant:stable",
          registry := str "registry-1.docker.io",
          image := str "homeassistant/home-assistant", tag := str "stable",
          use_https := true } := by decide

example : dockerFrom (str "foo.io/baz/bar") =
    .ok { name := str "foo.io/baz/bar", registry := str "foo.io",
          image := str "baz/bar", tag := str "latest", use_https := true } := by
  decide

example : dockerFrom (str "ghcr.io/user/app:v1") =
    .ok { name := str "ghcr.io/user/app:v1", registry := str "ghcr.io",
          image := str "user/app", tag := str "v1", use_https := true } := by
  decide

example : dockerFrom (str ":latest") =
    .panicked (str "Malformatted Docker image") := by decide

/-! ## Helper lemmas -/

/-- Splitting a list at a separator occurring in neither part is unique. -/
theorem append_sep_inj (sep : Char) :
    ∀ (xs xs' : Str) {ys ys' : Str},
      xs ++ sep :: ys = xs' ++ sep :: ys' → sep ∉ xs → sep ∉ xs' →
      xs = xs' ∧ ys = ys' := by
  intro xs
  induction xs with
  | nil =>
    intro xs' ys ys' h hx hx'
    cases xs' with
    | nil =>
      simp only [List.nil_append, List.cons.injEq] at h
      exact ⟨rfl, h.2⟩
    | cons b bs =>
      simp only [List.nil_append, List.cons_append, List.cons.injEq] at h
      exact absurd (by rw [h.1]; exact List.mem_cons_self b bs) hx'
  | cons a as ih =>
    intro xs' ys ys' h hx hx'
    cases xs' with
    | nil =>
      simp only [List.cons_append, List.nil_append, List.cons.injEq] at h
      exact absurd (by rw [← h.1]; exact List.mem_cons_self a as) hx
    | cons b bs =>
      simp only [List.cons_append, List.cons.injEq] at h
      have hx2 : sep ∉ as := fun hm => hx (List.mem_cons_of_mem a hm)
      have hx2' : sep ∉ bs := fun hm => hx' (List.mem_cons_of_mem b hm)
      obtain ⟨hh, ht⟩ := ih bs h.2 hx2 hx2'
      exact ⟨by rw [h.1, hh], ht⟩

/-- The branch key, with its separators exposed. -/
theorem gitHubBranch_key_norm (b : GitHubBranch) :
    b.key = str "$GITHUB_BRANCH$:"
      ++ (b.owner ++ '/' :: (b.repo ++ ':' :: (b.branch ++ '$' ::
            githubFlags b.fetchSubmodules b.deepClone b.leaveDotGit))) := by
  have h1 : str "/" = ['/'] := rfl
  have h2 : str ":" = [':'] := rfl
  have h3 : str "$" = ['$'] := rfl
  rw [GitHubBranch.key, h1, h2, h3]
  simp [List.append_assoc]

/-- The flag suffix depends only on the defaulted flag values. -/
theorem githubFlags_getD (x y z : Option Bool) :
    githubFlags x y z =
      githubFlags (some (x.getD false)) (some (y.getD false))
        (some (z.getD false)) := by
  cases x <;> cases y <;> cases z <;> rfl

/-- The flag suffix is injective on concrete flag triples. -/
theorem githubFlags_inj (a b c d e f : Bool)
    (h : githubFlags (some a) (some b) (some c) =
      githubFlags (some d) (some e) (some f)) :
    a = d ∧ b = e ∧ c = f := by
  revert h
  revert a b c d e f
  decide

/-- Encoding then decoding a GitHub lock payload is the identity. -/
theorem decodeGitHubLock_toJson (g : GitHubLock) :
    decodeGitHubLock g.toJson = some g := rfl

/-! ## C7: container-image matching law -/

/-- C7: for a default-registry image with repository `R` and tag `T`,
`matches p` holds exactly when `p` is the full `R:T` name or `p` is `R`
and carries no tag separator; in particular no other strict prefix of the
name matches. -/
theorem docker_matches_iff (d : Docker) (R T p : Str)
    (hreg : d.registry = DEFAULT_REGISTRY) (hname : d.name = R ++ ':' :: T)
    (himg : d.image = R) :
    d.matches p = true ↔
      (p = R ++ ':' :: T ∨ (p = R ∧ p.contains ':' = false)) := by
  simp only [Docker.matches, hreg, hname, himg, Bool.or_eq_true,
    Bool.and_eq_true, beq_iff_eq, beq_self_eq_true, true_and,
    Bool.not_eq_true']
  constructor
  · rintro (h | ⟨h1, h2⟩)
    · exact Or.inl h.symm
    · exact Or.inr ⟨h1.symm, h2⟩
  · rintro (h | ⟨h1, h2⟩)
    · exact Or.inl h.symm
    · exact Or.inr ⟨h1.symm, h2⟩

/-- C7 witness: the law evaluated on `postgres:15` with pattern
`postgres`, together with the claim's concrete instances. -/
theorem docker_matches_iff_witness :
    (postgres15.matches (str "postgres") = true ↔
      (str "postgres" = str "postgres" ++ ':' :: str "15" ∨
        (str "postgres" = str "postgres" ∧
          (str "postgres").contains ':' = false))) ∧
    postgres15.matches (str "postgres") = true ∧
    postgres15.matches (str "postgres:15") = true ∧
    postgres15.matches (str "postgres:14") = false ∧
    postgres15.matches (str "post") = false :=
  ⟨docker_matches_iff postgres15 (str "postgres") (str "15")
      (str "postgres") rfl rfl rfl,
    by decide, by decide, by decide, by decide⟩

/-! ## C3: key determinism and (non-)injectivity -/

/-- C3 counterexample: an unset flag and an explicitly false flag are
distinct declaration fields but give the same key, and the
`override_nix_sha256` field does not enter the key at all. -/
theorem branch_key_not_injective :
    (branchMain ≠ branchMainExplicit ∧
      branchMain.key = branchMainExplicit.key) ∧
    (branchMain ≠ branchMainOverride ∧
      branchMain.key = branchMainOverride.key) := by decide

/-- C3 (amended): `key()` is deterministic and determined exactly by owner,
repository, branch and the defaulted (`unwrap_or(false)`) flag values: two
branch dependencies (with separator-free fields) have equal keys iff those
agree — so an unset flag versus an explicitly false flag, or any
`override_*` field, never changes the key; container-image keys are exactly
the raw name. -/
theorem branch_key_iff_effective_fields (b1 b2 : GitHubBranch)
    (ho1 : '/' ∉ b1.owner) (ho2 : '/' ∉ b2.owner)
    (hr1 : ':' ∉ b1.repo) (hr2 : ':' ∉ b2.repo)
    (hb1 : '$' ∉ b1.branch) (hb2 : '$' ∉ b2.branch) :
    (b1.key = b2.key ↔
      (b1.owner = b2.owner ∧ b1.repo = b2.repo ∧ b1.branch = b2.branch ∧
        b1.fetchSubmodules.getD false = b2.fetchSubmodules.getD false ∧
        b1.deepClone.getD false = b2.deepClone.getD false ∧
        b1.leaveDotGit.getD false = b2.leaveDotGit.getD false)) ∧
    ∀ d1 d2 : Docker, d1.key = d2.key ↔ d1.name = d2.name := by
  constructor
  · constructor
    · intro h
      rw [gitHubBranch_key_norm, gitHubBranch_key_norm] at h
      have h' := List.append_cancel_left h
      obtain ⟨hown, h2⟩ := append_sep_inj '/' _ _ h' ho1 ho2
      obtain ⟨hrep, h3⟩ := append_sep_inj ':' _ _ h2 hr1 hr2
      obtain ⟨hbr, h4⟩ := append_sep_inj '$' _ _ h3 hb1 hb2
      rw [githubFlags_getD b1.fetchSubmodules,
        githubFlags_getD b2.fetchSubmodules] at h4
      obtain ⟨e4, e5, e6⟩ := githubFlags_inj _ _ _ _ _ _ h4
      exact ⟨hown, hrep, hbr, e4, e5, e6⟩
    · rintro ⟨e1, e2, e3, e4, e5, e6⟩
      rw [gitHubBranch_key_norm, gitHubBranch_key_norm, e1, e2, e3,
        githubFlags_getD b1.fetchSubmodules, e4, e5, e6,
        ← githubFlags_getD b2.fetchSubmodules]
  · intro d1 d2
    exact Iff.rfl

/-- C3 witness: the amended law evaluated on the two concrete branch
declarations of the counterexample. -/
theorem branch_key_iff_effective_fields_witness :
    branchMain.key = branchMainExplicit.key ↔
      (branchMain.owner = branchMainExplicit.owner ∧
        branchMain.repo = branchMainExplicit.repo ∧
        branchMain.branch = branchMainExplicit.branch ∧
        branchMain.fetchSubmodules.getD false =
          branchMainExplicit.fetchSubmodules.getD false ∧
        branchMain.deepClone.getD false =
          branchMainExplicit.deepClone.getD false ∧
        branchMain.leaveDotGit.getD false =
          branchMainExplicit.leaveDotGit.getD false) :=
  (branch_key_iff_effective_fields branchMain branchMainExplicit
    (by decide) (by decide) (by decide) (by decide) (by decide)
    (by decide)).1

/-! ## C10: flag defaulting and the release round trip -/

/-- C10: the flag-suffix function maps an unset flag and an explicitly
false flag to the same output in each of its three positions, and
consequently a release whose flags are each unset or false reconstructs
from its own lock entry with an unchanged key. -/
theorem flags_default_release_roundtrip :
    (∀ y z, githubFlags none y z = githubFlags (some false) y z) ∧
    (∀ x z, githubFlags x none z = githubFlags x (some false) z) ∧
    (∀ x y, githubFlags x y none = githubFlags x y (some false)) ∧
    ∀ (r : GitHubRelease) (net : GitHubNet) (entry : LockEntry),
      (r.fetchSubmodules = none ∨ r.fetchSubmodules = some false) →
      (r.deepClone = none ∨ r.deepClone = some false) →
      (r.leaveDotGit = none ∨ r.leaveDotGit = some false) →
      r.lockWithMetadata net = .ok entry →
      ∃ r2, GitHubRelease.fromLockEntry entry = some r2 ∧ r2.key = r.key := by
  refine ⟨fun y z => rfl, fun x z => rfl, fun x y => rfl, ?_⟩
  intro r net entry _ _ _ hok
  cases htag : net.latestReleaseTag with
  | error e => simp [GitHubRelease.lockWithMetadata, htag] at hok
  | ok rev =>
    cases hov : r.override_nix_sha256 with
    | some s =>
      simp only [GitHubRelease.lockWithMetadata, htag, hov] at hok
      rw [Except.ok.injEq] at hok
      subst hok
      exact ⟨_, rfl, by
        rw [GitHubRelease.key, GitHubRelease.key, ← githubFlags_getD]⟩
    | none =>
      cases hpre : net.prefetchSha256 with
      | error e =>
        simp [GitHubRelease.lockWithMetadata, htag, hov, hpre] at hok
      | ok sha =>
        simp only [GitHubRelease.lockWithMetadata, htag, hov, hpre] at hok
        rw [Except.ok.injEq] at hok
        subst hok
        exact ⟨_, rfl, by
          rw [GitHubRelease.key, GitHubRelease.key, ← githubFlags_getD]⟩

/-- C10 witness: the flag law at a concrete position and the round trip
evaluated on a concrete release with unset flags. -/
theorem flags_default_release_roundtrip_witness :
    githubFlags none (some true) (some false) =
      githubFlags (some false) (some true) (some false) ∧
    ∃ r2, GitHubRelease.fromLockEntry releaseEntry = some r2 ∧
      r2.key = releaseDecl.key :=
  ⟨flags_default_release_roundtrip.1 (some true) (some false),
    flags_default_release_roundtrip.2.2.2 releaseDecl releaseNet releaseEntry
      (Or.inl rfl) (Or.inl rfl) (Or.inl rfl) rfl⟩

/-! ## C9: totality of `Dependency::from_lock_entry` -/

/-- C9 counterexample: a docker entry whose metadata name is empty makes
the reconstructed `:latest` reference fail the image grammar, so
`from_lock_entry` panics instead of returning an error. -/
theorem from_lock_entry_panics :
    Dependency.fromLockEntry badDockerEntry =
      .panicked (str "Malformatted Docker image") := rfl

/-- C9 (amended): `from_lock_entry` returns an error naming the unknown
type for any unrecognized tag and an error (not a silent default) whenever
a known variant's reconstruction yields nothing — but it is not panic-free:
a docker entry whose `name:tag` fails the image grammar panics. -/
theorem from_lock_entry_classification (entry : LockEntry) :
    (entry.metadata.dep_type ≠ str "docker" →
      entry.metadata.dep_type ≠ str "github-branch" →
      entry.metadata.dep_type ≠ str "github-release" →
      Dependency.fromLockEntry entry = .err (.stringError
        (str "Unknown dependency type: " ++ entry.metadata.dep_type))) ∧
    (entry.metadata.dep_type = str "docker" →
      (Docker.fromLockEntry entry = .ok none →
        Dependency.fromLockEntry entry = .err (.stringError
          (str "Failed to reconstruct Docker dependency from lock entry"))) ∧
      (∀ tag, entry.metadata.selected_version = some tag →
        dockerCaptures (entry.metadata.name ++ ':' :: tag) = none →
        Dependency.fromLockEntry entry =
          .panicked (str "Malformatted Docker image"))) ∧
    (entry.metadata.dep_type = str "github-branch" →
      GitHubBranch.fromLockEntry entry = none →
      Dependency.fromLockEntry entry = .err (.stringError
        (str "Failed to reconstruct GitHubBranch dependency from lock entry"))) ∧
    (entry.metadata.dep_type = str "github-release" →
      GitHubRelease.fromLockEntry entry = none →
      Dependency.fromLockEntry entry = .err (.stringError
        (str "Failed to reconstruct GitHubRelease dependency from lock entry"))) := by
  refine ⟨?_, ?_, ?_, ?_⟩
  · intro h1 h2 h3
    have b1 : (entry.metadata.dep_type == str "docker") = false :=
      beq_eq_false_iff_ne.mpr h1
    have b2 : (entry.metadata.dep_type == str "github-branch") = false :=
      beq_eq_false_iff_ne.mpr h2
    have b3 : (entry.metadata.dep_type == str "github-release") = false :=
      beq_eq_false_iff_ne.mpr h3
    simp [Dependency.fromLockEntry, b1, b2, b3]
  · intro hd
    constructor
    · intro hrec
      simp [Dependency.fromLockEntry, hd, hrec]
    · intro tag htag hcap
      have hfle : Docker.fromLockEntry entry =
          .panicked (str "Malformatted Docker image") := by
        simp [Docker.fromLockEntry, htag, dockerFrom, hcap]
      simp [Dependency.fromLockEntry, hd, hfle]
  · intro hd hrec
    have hne : (str "github-branch" == str "docker") = false := by decide
    simp [Dependency.fromLockEntry, hd, hne, hrec]
  · intro hd hrec
    have hne1 : (str "github-release" == str "docker") = false := by decide
    have hne2 : (str "github-release" == str "github-branch") = false := by
      decide
    simp [Dependency.fromLockEntry, hd, hne1, hne2, hrec]

/-- C9 witness: the amended classification evaluated on concrete entries
of each failure class. -/
theorem from_lock_entry_classification_witness :
    Dependency.fromLockEntry
        { metadata :=
            { name := str "x", selected_version := none,
              resolved_version := none, timestamp := none,
              dep_type := str "cargo", description := [] },
          lock := .null } =
      .err (.stringError
        (str "Unknown dependency type: " ++ str "cargo")) ∧
    Dependency.fromLockEntry
        { metadata :=
            { name := str "x", selected_version := none,
              resolved_version := none, timestamp := none,
              dep_type := str "github-release", description := [] },
          lock := .null } =
      .err (.stringError
        (str "Failed to reconstruct GitHubRelease dependency from lock entry")) :=
  ⟨(from_lock_entry_classification _).1 (by decide) (by decide) (by decide),
    (from_lock_entry_classification _).2.2.2 rfl rfl⟩

/-! ## C2 and C4: behavior of the update command -/

/-- If some dependency in the list fails to resolve, the resolution loop
stops with the key of the first failing one. -/
theorem resolveLoop_error_of_mem (resolve : Dependency → Except Error LockEntry)
    (d : Dependency) :
    ∀ (deps : List Dependency) (lf : LockFileT), d ∈ deps →
      (∃ e, resolve d = .error e) →
      ∃ d', d' ∈ deps ∧ (∃ e, resolve d' = .error e) ∧
        resolveLoop resolve deps lf = .error d'.key := by
  intro deps
  induction deps with
  | nil => intro lf h; cases h
  | cons a rest ih =>
    intro lf hmem herr
    cases ha : resolve a with
    | error e =>
      exact ⟨a, List.mem_cons_self a rest, ⟨e, ha⟩, by
        simp [resolveLoop, ha]⟩
    | ok entry =>
      have hd : d ∈ rest := by
        rcases List.mem_cons.mp hmem with rfl | h
        · obtain ⟨e, he⟩ := herr
          rw [ha] at he
          cases he
        · exact h
      obtain ⟨d', hm, he, hl⟩ := ih (lockInsert a.key entry lf) hd herr
      exact ⟨d', List.mem_cons_of_mem _ hm, he, by simp [resolveLoop, ha, hl]⟩

/-- C4: in a full (unfiltered) update, any resolution failure makes the
run report a failing dependency's key and end without writing a lock
file. -/
theorem full_update_fail_fast (discovered : List Dependency)
    (lockState : Option (Except Str LockFileT))
    (resolve : Dependency → Except Error LockEntry) (d : Dependency)
    (hvalid : validatePasses lockState = true) (hd : d ∈ discovered)
    (herr : ∃ e, resolve d = .error e) :
    (updateCommandInDir discovered lockState none resolve).written = none ∧
    ∃ d', d' ∈ discovered ∧ (∃ e, resolve d' = .error e) ∧
      (updateCommandInDir discovered lockState none resolve).failedKey =
        some d'.key := by
  obtain ⟨d', hm, he, hl⟩ :=
    resolveLoop_error_of_mem resolve d discovered [] hd herr
  refine ⟨?_, d', hm, he, ?_⟩ <;>
    simp [updateCommandInDir, hvalid, hl]

/-- C4 witness: the fail-fast law on a one-dependency project whose
resolution fails. -/
theorem full_update_fail_fast_witness :
    (updateCommandInDir [Dependency.docker postgres15] none none
        (fun _ => .error (.stringError (str "registry unreachable")))).written =
      none ∧
    ∃ d', d' ∈ [Dependency.docker postgres15] ∧
      (∃ e, (Except.error (Error.stringError (str "registry unreachable")) :
          Except Error LockEntry) = .error e) ∧
      (updateCommandInDir [Dependency.docker postgres15] none none
        (fun _ => .error (.stringError (str "registry unreachable")))).failedKey =
        some d'.key :=
  full_update_fail_fast [Dependency.docker postgres15] none
    (fun _ => .error (.stringError (str "registry unreachable")))
    (Dependency.docker postgres15) rfl (List.mem_cons_self _ _)
    ⟨.stringError (str "registry unreachable"), rfl⟩

/-- C2 (amended): when no discovered declaration matches the requested
pattern, the update reports the pattern as not found and stops — nothing
is resolved and no lock file is written, even if the loaded store holds a
matching entry. -/
theorem selective_update_no_match_stops (discovered : List Dependency)
    (lockState : Option (Except Str LockFileT)) (pat : Str)
    (resolve : Dependency → Except Error LockEntry)
    (hvalid : validatePasses lockState = true)
    (hnone : ∀ d ∈ discovered, d.matches pat = false) :
    (updateCommandInDir discovered lockState (some pat) resolve).notFound =
      true ∧
    (updateCommandInDir discovered lockState (some pat) resolve).written =
      none ∧
    (updateCommandInDir discovered lockState (some pat) resolve).failedKey =
      none := by
  have hfil : discovered.filter (fun d => d.matches pat) = [] :=
    List.filter_eq_nil_iff.mpr (by intro a ha; simp [hnone a ha])
  refine ⟨?_, ?_, ?_⟩ <;> simp [updateCommandInDir, hvalid, hfil]

/-- C2 witness: the amended behavior on a concrete project declaring only
`postgres:15` while `mysql:8` is requested. -/
theorem selective_update_no_match_stops_witness :
    (updateCommandInDir [Dependency.docker postgres15]
        (some (.ok mysqlStore)) (some (str "mysql:8"))
        (fun _ => .ok mysqlEntry)).notFound = true ∧
    (updateCommandInDir [Dependency.docker postgres15]
        (some (.ok mysqlStore)) (some (str "mysql:8"))
        (fun _ => .ok mysqlEntry)).written = none ∧
    (updateCommandInDir [Dependency.docker postgres15]
        (some (.ok mysqlStore)) (some (str "mysql:8"))
        (fun _ => .ok mysqlEntry)).failedKey = none :=
  selective_update_no_match_stops [Dependency.docker postgres15]
    (some (.ok mysqlStore)) (str "mysql:8") (fun _ => .ok mysqlEntry) rfl
    (by decide)

/-- C2 counterexample: with the `mysql:8` pattern, a loaded store holding
a matching, reconstructible `mysql:8` entry, and a resolver that would
succeed, the run still ends in the "not found" outcome with nothing
resolved and nothing written — there is no fallback to the lock store. -/
theorem selective_update_no_fallback :
    lockLookup (str "mysql:8") mysqlStore = some mysqlEntry ∧
    Dependency.fromLockEntry mysqlEntry =
      .ok (.docker mysqlReconstructed) ∧
    (Dependency.docker mysqlReconstructed).matches (str "mysql:8") = true ∧
    updateCommandInDir [Dependency.docker postgres15]
        (some (.ok mysqlStore)) (some (str "mysql:8"))
        (fun _ => .ok mysqlEntry) =
      { exitedWithError := false, notFound := true, failedKey := none,
        written := none } :=
  ⟨rfl, rfl, rfl, rfl⟩

/-! ## C5: selective update preserves unmatched entries -/

/-- Inserting under one key leaves every other key's binding unchanged. -/
theorem lockLookup_insert_ne (k kB : Str) (v : LockEntry) (hne : k ≠ kB) :
    ∀ lf, lockLookup kB (lockInsert k v lf) = lockLookup kB lf := by
  have hkB : (kB == k) = false := beq_eq_false_iff_ne.mpr (Ne.symm hne)
  intro lf
  induction lf with
  | nil => simp [lockInsert, lockLookup, hkB]
  | cons hd tl ih =>
    obtain ⟨k1, v1⟩ := hd
    simp only [lockInsert]
    by_cases h1 : (k == k1) = true
    · rw [if_pos h1]
      have h3 : (kB == k1) = false := by rw [← beq_iff_eq.mp h1]; exact hkB
      simp [lockLookup, hkB, h3]
    · rw [if_neg h1]
      by_cases h2 : strLt k k1 = true
      · rw [if_pos h2]
        simp [lockLookup, hkB]
      · rw [if_neg h2]
        by_cases h3 : (kB == k1) = true
        · simp [lockLookup, h3]
        · simp [lockLookup, h3, ih]

/-- A resolution loop in which every dependency resolves and no key equals
`kB` succeeds and leaves `kB`'s binding unchanged. -/
theorem resolveLoop_preserves (resolve : Dependency → Except Error LockEntry)
    (kB : Str) :
    ∀ (deps : List Dependency) (lf : LockFileT),
      (∀ d ∈ deps, ∃ en, resolve d = .ok en) →
      (∀ d ∈ deps, d.key ≠ kB) →
      ∃ lf', resolveLoop resolve deps lf = .ok lf' ∧
        lockLookup kB lf' = lockLookup kB lf := by
  intro deps
  induction deps with
  | nil => intro lf _ _; exact ⟨lf, rfl, rfl⟩
  | cons a rest ih =>
    intro lf hok hkey
    obtain ⟨en, hen⟩ := hok a (List.mem_cons_self a rest)
    obtain ⟨lf', h1, h2⟩ := ih (lockInsert a.key en lf)
      (fun d hd => hok d (List.mem_cons_of_mem _ hd))
      (fun d hd => hkey d (List.mem_cons_of_mem _ hd))
    refine ⟨lf', by simp [resolveLoop, hen, h1], ?_⟩
    rw [h2, lockLookup_insert_ne a.key kB en
      (hkey a (List.mem_cons_self a rest)) lf]

/-- C5: a selective update whose pattern selects only other dependencies
(all of which resolve) rewrites the lock file with the unmatched entry's
stored binding unchanged. -/
theorem selective_update_frame (discovered : List Dependency)
    (lf : LockFileT) (pat : Str)
    (resolve : Dependency → Except Error LockEntry) (kB : Str)
    (eB : LockEntry)
    (hvalid : validatePasses (some (.ok lf)) = true)
    (hB : lockLookup kB lf = some eB)
    (hne : discovered.filter (fun d => d.matches pat) ≠ [])
    (hok : ∀ d ∈ discovered.filter (fun d => d.matches pat),
      ∃ en, resolve d = .ok en)
    (hkey : ∀ d ∈ discovered.filter (fun d => d.matches pat), d.key ≠ kB) :
    ∃ lf', (updateCommandInDir discovered (some (.ok lf)) (some pat)
        resolve).written = some lf' ∧
      lockLookup kB lf' = some eB := by
  obtain ⟨lf', h1, h2⟩ := resolveLoop_preserves resolve kB
    (discovered.filter (fun d => d.matches pat)) lf hok hkey
  refine ⟨lf', ?_, by rw [h2, hB]⟩
  simp [updateCommandInDir, hvalid, hne, h1]

/-- C5 witness: updating `postgres:15` while a `mysql:8` entry is stored
leaves the stored entry bound unchanged in the written store. -/
theorem selective_update_frame_witness :
    ∃ lf', (updateCommandInDir [Dependency.docker postgres15]
        (some (.ok mysqlStore)) (some (str "postgres:15"))
        (fun _ => .ok redisEntry)).written = some lf' ∧
      lockLookup (str "mysql:8") lf' = some mysqlEntry :=
  selective_update_frame [Dependency.docker postgres15] mysqlStore
    (str "postgres:15") (fun _ => .ok redisEntry) (str "mysql:8") mysqlEntry
    rfl rfl (by decide) (fun d _ => ⟨redisEntry, rfl⟩) (by decide)

/-! ## Symbolic evaluation of the image grammar -/

/-- Splitting a run of matching characters off an append. -/
theorem takeWhile_append_eq (p : Char → Bool) :
    ∀ (xs ys : Str), (∀ x ∈ xs, p x = true) →
      (∀ c, ys.head? = some c → p c = false) →
      (xs ++ ys).takeWhile p = xs ∧ (xs ++ ys).dropWhile p = ys := by
  intro xs
  induction xs with
  | nil =>
    intro ys _ hy
    cases ys with
    | nil => exact ⟨rfl, rfl⟩
    | cons c cs =>
      have hc := hy c rfl
      constructor <;> simp [List.takeWhile, List.dropWhile, hc]
  | cons a as ih =>
    intro ys hx hy
    have ha : p a = true := hx a (List.mem_cons_self a as)
    have hrec := ih ys (fun x hm => hx x (List.mem_cons_of_mem a hm)) hy
    constructor <;>
      simp [List.takeWhile, List.dropWhile, ha, hrec.1, hrec.2]

/-- Class-2 characters are class-1 characters. -/
theorem isC1_of_isC2 (c : Char) (h : isC2 c = true) : isC1 c = true := by
  simp only [isC1, isC2, Bool.or_eq_true] at h ⊢
  tauto

/-- A character class excludes characters of a list avoiding it. -/
theorem contains_eq_false_of_isC2 (s : Str) (c : Char)
    (h : ∀ x ∈ s, isC2 x = true) (hc : isC2 c = false) :
    s.contains c = false := by
  have hm : c ∉ s := fun hmem => by rw [h c hmem] at hc; cases hc
  simpa using hm

/-- A list containing a given character reports so. -/
theorem contains_eq_true_of_mem (s : Str) (c : Char) (h : c ∈ s) :
    s.contains c = true := by simpa using h

/-- The greedy segment matcher consumes exactly a well-formed repository
path when the remainder cannot extend it. -/
theorem segsFuel_image :
    ∀ (img : Str), IsImageStr img → ∀ (rest : Str),
      (∀ c, rest.head? = some c → isC2 c = false ∧ c ≠ '/') →
      ∀ fuel, (img ++ rest).length ≤ fuel →
      segsFuel fuel (img ++ rest) = some (img, rest) := by
  intro img himg
  induction himg with
  | single s hne hc =>
    intro rest hrest fuel hfuel
    cases fuel with
    | zero =>
      exfalso
      have h1 : 0 < s.length := List.length_pos.mpr hne
      rw [List.length_append] at hfuel
      omega
    | succ f =>
      have hspan := takeWhile_append_eq isC2 s rest hc
        (fun c hc' => (hrest c hc').1)
      simp only [segsFuel, hspan.1, hspan.2]
      rw [if_neg hne]
      cases rest with
      | nil => rfl
      | cons c cs =>
        have hc' := hrest c rfl
        split
        · next r2 heq =>
          rw [List.cons.injEq] at heq
          exact absurd heq.1 hc'.2
        · rfl
  | cons s rest2 hne hc hr ih =>
    intro rest hrest fuel hfuel
    have hassoc : (s ++ '/' :: rest2) ++ rest = s ++ '/' :: (rest2 ++ rest) := by
      simp
    rw [hassoc] at hfuel ⊢
    cases fuel with
    | zero =>
      exfalso
      have h1 : 0 < s.length := List.length_pos.mpr hne
      rw [List.length_append] at hfuel
      omega
    | succ f =>
      have hspan := takeWhile_append_eq isC2 s ('/' :: (rest2 ++ rest)) hc
        (fun c hc' => by
          simp only [List.head?] at hc'
          rw [Option.some.injEq] at hc'
          rw [← hc']
          decide)
      simp only [segsFuel, hspan.1, hspan.2]
      rw [if_neg hne]
      have hih := ih rest hrest f (by
        simp only [List.length_append, List.length_cons] at hfuel ⊢
        have h1 : 0 < s.length := List.length_pos.mpr hne
        omega)
      simp [hih]

/-- The tag tail matcher on an explicit `:tag` suffix. -/
theorem tagTail_colon (tag : Str) (hne : tag ≠ [])
    (hc : ∀ c ∈ tag, isC1 c = true) :
    tagTail (':' :: tag) = some (some tag) := by
  have hall : tag.all isC1 = true := List.all_eq_true.mpr hc
  simp [tagTail, hne, hall]

/-- The repository-only match on a well-formed path plus tag tail. -/
theorem dockerMatchNoReg_image (img : Str) (himg : IsImageStr img)
    (tail : Str) (tagOpt : Option Str)
    (hhead : ∀ c, tail.head? = some c → isC2 c = false ∧ c ≠ '/')
    (htt : tagTail tail = some tagOpt) :
    dockerMatchNoReg (img ++ tail) = some (img, tagOpt) := by
  unfold dockerMatchNoReg parseSegs
  rw [segsFuel_image img himg tail hhead _ (le_refl _)]
  simp [htt]

/-- Full captures on a single-segment repository with no leading
registry/namespace part: group 1 stays empty. -/
theorem dockerCaptures_noreg_single (s : Str) (hne : s ≠ [])
    (hc : ∀ c ∈ s, isC2 c = true) (tail : Str) (tagOpt : Option Str)
    (hhead : ∀ c, tail.head? = some c → isC1 c = false ∧ c ≠ '/')
    (htt : tagTail tail = some tagOpt) :
    dockerCaptures (s ++ tail) = some (none, s, tagOpt) := by
  have hc1 : ∀ c ∈ s, isC1 c = true := fun c hm => isC1_of_isC2 c (hc c hm)
  have hspan := takeWhile_append_eq isC1 s tail hc1
    (fun c hc' => (hhead c hc').1)
  have hhead2 : ∀ c, tail.head? = some c → isC2 c = false ∧ c ≠ '/' := by
    intro c hc'
    refine ⟨?_, (hhead c hc').2⟩
    cases h2 : isC2 c with
    | false => rfl
    | true =>
      exact absurd (isC1_of_isC2 c h2) (by simp [(hhead c hc').1])
  have hmr := dockerMatchNoReg_image s (IsImageStr.single s hne hc) tail
    tagOpt hhead2 htt
  unfold dockerCaptures
  simp only [hspan.1, hspan.2]
  rw [if_neg hne]
  cases tail with
  | nil =>
    rw [List.append_nil] at hmr
    simp [hmr]
  | cons c cs =>
    have hc' := hhead c rfl
    have hatt : (match c :: cs with
        | '/' :: r2 =>
          Option.map (fun p => ((some s : Option Str), p.1, p.2))
            (dockerMatchNoReg r2)
        | _ => none) = none := by
      split
      · next r2 heq =>
        rw [List.cons.injEq] at heq
        exact absurd heq.1 hc'.2
      · rfl
    rw [hatt]
    simp [hmr]

/-- Full captures when a leading class-1 segment is followed by a slash:
group 1 takes that segment. -/
theorem dockerCaptures_withreg (seg1 : Str) (hne : seg1 ≠ [])
    (hc : ∀ c ∈ seg1, isC1 c = true) (rest : Str) (g2 : Str)
    (tagOpt : Option Str) (hrest : dockerMatchNoReg rest = some (g2, tagOpt)) :
    dockerCaptures (seg1 ++ '/' :: rest) = some (some seg1, g2, tagOpt) := by
  have hspan := takeWhile_append_eq isC1 seg1 ('/' :: rest) hc
    (fun c hc' => by
      simp only [List.head?] at hc'
      rw [Option.some.injEq] at hc'
      rw [← hc']
      decide)
  unfold dockerCaptures
  simp only [hspan.1, hspan.2]
  rw [if_neg hne]
  simp [hrest]

/-- `Docker::from` on a well-formed repository path with an optional tag
tail and no registry part: default registry, path stored verbatim, tag
defaulted to `latest` when absent. -/
theorem dockerFrom_noreg (img : Str) (himg : IsImageStr img) (tail : Str)
    (tagOpt : Option Str)
    (hhead : ∀ c, tail.head? = some c → isC1 c = false ∧ c ≠ '/')
    (htt : tagTail tail = some tagOpt) :
    dockerFrom (img ++ tail) =
      .ok { name := img ++ tail, registry := DEFAULT_REGISTRY, image := img,
            tag := tagOpt.getD DEFAULT_TAG, use_https := true } := by
  have hheadC2 : ∀ c, tail.head? = some c → isC2 c = false ∧ c ≠ '/' := by
    intro c hc'
    refine ⟨?_, (hhead c hc').2⟩
    cases h2 : isC2 c with
    | false => rfl
    | true => exact absurd (isC1_of_isC2 c h2) (by simp [(hhead c hc').1])
  cases himg with
  | single s hne hc =>
    have hcap := dockerCaptures_noreg_single img hne hc tail tagOpt hhead htt
    unfold dockerFrom
    rw [hcap]
  | cons s rest2 hne hc hr =>
    have hassoc : (s ++ '/' :: rest2) ++ tail = s ++ '/' :: (rest2 ++ tail) := by
      simp
    have hmr := dockerMatchNoReg_image rest2 hr tail tagOpt hheadC2 htt
    have hc1 : ∀ c ∈ s, isC1 c = true := fun c hm => isC1_of_isC2 c (hc c hm)
    have hcap := dockerCaptures_withreg s hne hc1 (rest2 ++ tail) rest2
      tagOpt hmr
    have hnm : '.' ∉ s := fun hmem => absurd (hc '.' hmem) (by decide)
    unfold dockerFrom
    rw [hassoc, hcap]
    simp [hnm]

/-- `Docker::from` when a dotted class-1 first segment precedes the
repository path: that segment becomes the registry. -/
theorem dockerFrom_registry (host : Str) (hne : host ≠ [])
    (hc : ∀ c ∈ host, isC1 c = true) (hdot : '.' ∈ host) (img : Str)
    (himg : IsImageStr img) (tail : Str) (tagOpt : Option Str)
    (hhead : ∀ c, tail.head? = some c → isC2 c = false ∧ c ≠ '/')
    (htt : tagTail tail = some tagOpt) :
    dockerFrom (host ++ '/' :: (img ++ tail)) =
      .ok { name := host ++ '/' :: (img ++ tail), registry := host,
            image := img, tag := tagOpt.getD DEFAULT_TAG,
            use_https := true } := by
  have hmr := dockerMatchNoReg_image img himg tail tagOpt hhead htt
  have hcap := dockerCaptures_withreg host hne hc (img ++ tail) img tagOpt hmr
  unfold dockerFrom
  rw [hcap]
  simp [hdot]

/-- A `:tag` tail starts with a character outside class 1. -/
theorem head_colon_c1 (tag : Str) :
    ∀ c, ((':' :: tag).head? = some c) → isC1 c = false ∧ c ≠ '/' := by
  intro c hc'
  simp only [List.head?] at hc'
  rw [Option.some.injEq] at hc'
  rw [← hc']
  exact ⟨by decide, by decide⟩

/-- A `:tag` tail starts with a character outside class 2. -/
theorem head_colon_c2 (tag : Str) :
    ∀ c, ((':' :: tag).head? = some c) → isC2 c = false ∧ c ≠ '/' := by
  intro c hc'
  simp only [List.head?] at hc'
  rw [Option.some.injEq] at hc'
  rw [← hc']
  exact ⟨by decide, by decide⟩

/-- The `library/` prefix is applied exactly to default-registry,
single-segment repositories. -/
theorem resolutionImageName_single (d : Docker)
    (hreg : d.registry = DEFAULT_REGISTRY) (hns : '/' ∉ d.image) :
    d.resolutionImageName = str "library/" ++ d.image := by
  have hcf : d.image.contains '/' = false := by simpa using hns
  unfold Docker.resolutionImageName
  rw [hreg, hcf]
  rfl

/-- Slash-containing repository paths are used verbatim at resolution. -/
theorem resolutionImageName_slash (d : Docker) (hmem : '/' ∈ d.image) :
    d.resolutionImageName = d.image := by
  have hct : d.image.contains '/' = true := by simpa using hmem
  unfold Docker.resolutionImageName
  rw [hct]
  simp

/-! ## C8: parsing and defaulting of container-image references -/

/-- C8: on the four well-formed reference shapes the parser defaults the
registry to `registry-1.docker.io` unless the dotted first segment names a
registry, defaults the tag to `latest`, stores the repository verbatim
(no `library/` prefix), and prepends `library/` only in the
resolution-time path of default-registry single-segment repositories. -/
theorem docker_parse_defaulting :
    (∀ repo : Str, repo ≠ [] → (∀ c ∈ repo, isC2 c = true) →
      dockerFrom repo =
        .ok { name := repo, registry := DEFAULT_REGISTRY, image := repo,
              tag := DEFAULT_TAG, use_https := true } ∧
      Docker.resolutionImageName
          { name := repo, registry := DEFAULT_REGISTRY, image := repo,
            tag := DEFAULT_TAG, use_https := true } =
        str "library/" ++ repo) ∧
    (∀ repo tag : Str, repo ≠ [] → (∀ c ∈ repo, isC2 c = true) →
      tag ≠ [] → (∀ c ∈ tag, isC1 c = true) →
      dockerFrom (repo ++ ':' :: tag) =
        .ok { name := repo ++ ':' :: tag, registry := DEFAULT_REGISTRY,
              image := repo, tag := tag, use_https := true }) ∧
    (∀ ns repo : Str, ns ≠ [] → (∀ c ∈ ns, isC2 c = true) →
      repo ≠ [] → (∀ c ∈ repo, isC2 c = true) →
      dockerFrom (ns ++ '/' :: repo) =
        .ok { name := ns ++ '/' :: repo, registry := DEFAULT_REGISTRY,
              image := ns ++ '/' :: repo, tag := DEFAULT_TAG,
              use_https := true } ∧
      Docker.resolutionImageName
          { name := ns ++ '/' :: repo, registry := DEFAULT_REGISTRY,
            image := ns ++ '/' :: repo, tag := DEFAULT_TAG,
            use_https := true } = ns ++ '/' :: repo) ∧
    (∀ host ns repo tag : Str, host ≠ [] → (∀ c ∈ host, isC1 c = true) →
      '.' ∈ host → ns ≠ [] → (∀ c ∈ ns, isC2 c = true) → repo ≠ [] →
      (∀ c ∈ repo, isC2 c = true) → tag ≠ [] → (∀ c ∈ tag, isC1 c = true) →
      dockerFrom (host ++ '/' :: (ns ++ '/' :: (repo ++ ':' :: tag))) =
        .ok { name := host ++ '/' :: (ns ++ '/' :: (repo ++ ':' :: tag)),
              registry := host, image := ns ++ '/' :: repo, tag := tag,
              use_https := true } ∧
      Docker.resolutionImageName
          { name := host ++ '/' :: (ns ++ '/' :: (repo ++ ':' :: tag)),
            registry := host, image := ns ++ '/' :: repo, tag := tag,
            use_https := true } = ns ++ '/' :: repo) := by
  refine ⟨?_, ?_, ?_, ?_⟩
  · intro repo hne hc
    have h := dockerFrom_noreg repo (IsImageStr.single repo hne hc) [] none
      (fun c hc' => nomatch hc') rfl
    rw [List.append_nil] at h
    refine ⟨h, ?_⟩
    exact resolutionImageName_single _ rfl
      (fun hmem => absurd (hc '/' hmem) (by decide))
  · intro repo tag hne hc htne htc
    exact dockerFrom_noreg repo (IsImageStr.single repo hne hc) (':' :: tag)
      (some tag) (head_colon_c1 tag) (tagTail_colon tag htne htc)
  · intro ns repo hnne hnc hrne hrc
    have himg : IsImageStr (ns ++ '/' :: repo) :=
      IsImageStr.cons ns repo hnne hnc (IsImageStr.single repo hrne hrc)
    have h := dockerFrom_noreg (ns ++ '/' :: repo) himg [] none
      (fun c hc' => nomatch hc') rfl
    rw [List.append_nil] at h
    refine ⟨h, ?_⟩
    exact resolutionImageName_slash _
      (List.mem_append.mpr (Or.inr (List.mem_cons_self '/' repo)))
  · intro host ns repo tag hhne hhc hdot hnne hnc hrne hrc htne htc
    have himg : IsImageStr (ns ++ '/' :: repo) :=
      IsImageStr.cons ns repo hnne hnc (IsImageStr.single repo hrne hrc)
    have h := dockerFrom_registry host hhne hhc hdot (ns ++ '/' :: repo)
      himg (':' :: tag) (some tag) (head_colon_c2 tag)
      (tagTail_colon tag htne htc)
    have hassoc : (ns ++ '/' :: repo) ++ ':' :: tag =
        ns ++ '/' :: (repo ++ ':' :: tag) := by simp
    rw [hassoc] at h
    refine ⟨h, ?_⟩
    exact resolutionImageName_slash _
      (List.mem_append.mpr (Or.inr (List.mem_cons_self '/' repo)))

/-- C8 witness: the four shapes evaluated at `postgres`, `postgres:15`,
`baz/bar` and `foo.io/user/app:v1`. -/
theorem docker_parse_defaulting_witness :
    (dockerFrom (str "postgres") =
        .ok { name := str "postgres", registry := DEFAULT_REGISTRY,
              image := str "postgres", tag := DEFAULT_TAG,
              use_https := true } ∧
      Docker.resolutionImageName
          { name := str "postgres", registry := DEFAULT_REGISTRY,
            image := str "postgres", tag := DEFAULT_TAG,
            use_https := true } = str "library/" ++ str "postgres") ∧
    dockerFrom (str "postgres" ++ ':' :: str "15") =
      .ok { name := str "postgres" ++ ':' :: str "15",
            registry := DEFAULT_REGISTRY, image := str "postgres",
            tag := str "15", use_https := true } ∧
    (dockerFrom (str "baz" ++ '/' :: str "bar") =
        .ok { name := str "baz" ++ '/' :: str "bar",
              registry := DEFAULT_REGISTRY,
              image := str "baz" ++ '/' :: str "bar", tag := DEFAULT_TAG,
              use_https := true } ∧
      Docker.resolutionImageName
          { name := str "baz" ++ '/' :: str "bar",
            registry := DEFAULT_REGISTRY,
            image := str "baz" ++ '/' :: str "bar", tag := DEFAULT_TAG,
            use_https := true } = str "baz" ++ '/' :: str "bar") ∧
    (dockerFrom (str "foo.io" ++ '/' :: (str "user" ++ '/' ::
        (str "app" ++ ':' :: str "v1"))) =
        .ok { name := str "foo.io" ++ '/' :: (str "user" ++ '/' ::
                (str "app" ++ ':' :: str "v1")),
              registry := str "foo.io",
              image := str "user" ++ '/' :: str "app", tag := str "v1",
              use_https := true } ∧
      Docker.resolutionImageName
          { name := str "foo.io" ++ '/' :: (str "user" ++ '/' ::
              (str "app" ++ ':' :: str "v1")),
            registry := str "foo.io",
            image := str "user" ++ '/' :: str "app", tag := str "v1",
            use_https := true } = str "user" ++ '/' :: str "app") :=
  ⟨docker_parse_defaulting.1 (str "postgres") (by decide) (by decide),
    docker_parse_defaulting.2.1 (str "postgres") (str "15") (by decide)
      (by decide) (by decide) (by decide),
    docker_parse_defaulting.2.2.1 (str "baz") (str "bar") (by decide)
      (by decide) (by decide) (by decide),
    docker_parse_defaulting.2.2.2 (str "foo.io") (str "user") (str "app")
      (str "v1") (by decide) (by decide) (by decide) (by decide) (by decide)
      (by decide) (by decide) (by decide) (by decide)⟩

/-! ## C6: enrichment failures degrade gracefully -/

/-- The enrichment helper never returns an error, whatever the registry
does. -/
theorem fetchImageMetadata_isOk (d : Docker) (net : MetadataNet) :
    ∃ p, fetchImageMetadata d net = .ok p := by
  unfold fetchImageMetadata
  repeat' split
  all_goals exact ⟨_, rfl⟩


/-- Any reachable failure in the enrichment path yields the degraded
"no friendly version, no timestamp" result, never an error. -/
theorem fetchImageMetadata_fails (d : Docker) (net : MetadataNet)
    (hfail : enrichmentFails net) :
    fetchImageMetadata d net = .ok (none, none) := by
  unfold enrichmentFails at hfail
  unfold fetchImageMetadata
  repeat' split
  all_goals
    first
      | rfl
      | (exfalso
         rcases hfail with
           ⟨e, h⟩ | ⟨e, h⟩ | h | ⟨mans, hm, hsub⟩ | ⟨e, h⟩ | ⟨e, h⟩ |
           ⟨b, hb, hdec⟩ <;>
         simp_all)

/-- C6: a failure anywhere in the metadata-enrichment path (client or
manifest fetch, manifest-list follow-up, config-blob fetch, or config JSON
parse) leaves `lock_with_metadata` successful with the digest as resolved
version and no timestamp; the enrichment helper itself never returns an
error. -/
theorem docker_enrichment_degrades (d : Docker) (net : DockerNet) (dg : Str)
    (hfail : enrichmentFails net.meta)
    (hdg : net.latestDigest = .ok (some dg)) :
    d.lockWithMetadata net =
      .ok { metadata :=
              { name := d.image
                selected_version := some d.tag
                resolved_version := some dg
                timestamp := none
                dep_type := str "docker"
                description :=
                  str "Docker image " ++ d.image ++ ':' :: d.tag
                    ++ str " from " ++ d.registry }
            lock := .strVal dg } ∧
    fetchImageMetadata d net.meta = .ok (none, none) ∧
    ∀ net2 : MetadataNet, ∃ p, fetchImageMetadata d net2 = .ok p := by
  have hf := fetchImageMetadata_fails d net.meta hfail
  refine ⟨?_, hf, fun net2 => fetchImageMetadata_isOk d net2⟩
  simp only [Docker.lockWithMetadata, hdg, hf]
  rfl

/-- C6 witness: the degradation law evaluated on `postgres:15` with a
digest-yielding oracle whose every enrichment request errors. -/
theorem docker_enrichment_degrades_witness :
    postgres15.lockWithMetadata (digestNet (str "sha256:d1")) =
      .ok { metadata :=
              { name := postgres15.image
                selected_version := some postgres15.tag
                resolved_version := some (str "sha256:d1")
                timestamp := none
                dep_type := str "docker"
                description :=
                  str "Docker image " ++ postgres15.image
                    ++ ':' :: postgres15.tag ++ str " from "
                    ++ postgres15.registry }
            lock := .strVal (str "sha256:d1") } ∧
    fetchImageMetadata postgres15 (digestNet (str "sha256:d1")).meta =
      .ok (none, none) :=
  ⟨(docker_enrichment_degrades postgres15 (digestNet (str "sha256:d1"))
      (str "sha256:d1") (Or.inl ⟨Error.stringError [], rfl⟩) rfl).1,
    (docker_enrichment_degrades postgres15 (digestNet (str "sha256:d1"))
      (str "sha256:d1") (Or.inl ⟨Error.stringError [], rfl⟩) rfl).2.1⟩

/-! ## C1: the docker lock/reconstruct round trip -/

/-- C1 counterexample: for the registry-qualified `gcr.io/user/app:v1` and
the tag-less `redis`, `lock_with_metadata` succeeds but the reconstructed
variant's key (`image:tag`) differs from the original key (the raw
name). -/
theorem docker_roundtrip_fails :
    (dockerFrom (str "gcr.io/user/app:v1") = .ok gcrDocker ∧
      gcrDocker.lockWithMetadata (digestNet (str "sha256:d1")) =
        .ok gcrEntry ∧
      Docker.fromLockEntry gcrEntry = .ok (some gcrReconstructed) ∧
      gcrReconstructed.key ≠ gcrDocker.key) ∧
    (dockerFrom (str "redis") = .ok redisDocker ∧
      redisDocker.lockWithMetadata (digestNet (str "sha256:d2")) =
        .ok redisEntry ∧
      Docker.fromLockEntry redisEntry = .ok (some redisReconstructed) ∧
      redisReconstructed.key ≠ redisDocker.key) :=
  ⟨⟨rfl, rfl, rfl, by decide⟩, ⟨rfl, rfl, rfl, by decide⟩⟩

/-- C1 (amended): whenever `lock_with_metadata` succeeds on a dependency
with a well-formed repository path and tag, `from_lock_entry` succeeds on
the produced entry and rebuilds a variant whose key is `image:tag`; that
key equals the original `key()` exactly for dependencies whose raw name
already is `image:tag` (default registry, explicit tag) — registry
qualifiers and defaulted tags are not recoverable from the entry. -/
theorem docker_roundtrip_amended (d : Docker) (net : DockerNet)
    (entry : LockEntry) (himg : IsImageStr d.image) (htne : d.tag ≠ [])
    (htc : ∀ c ∈ d.tag, isC1 c = true)
    (hok : d.lockWithMetadata net = .ok entry) :
    Docker.fromLockEntry entry =
      .ok (some { name := d.image ++ ':' :: d.tag,
                  registry := DEFAULT_REGISTRY, image := d.image,
                  tag := d.tag, use_https := true }) ∧
    (Docker.key { name := d.image ++ ':' :: d.tag,
                  registry := DEFAULT_REGISTRY, image := d.image,
                  tag := d.tag, use_https := true } =
      d.image ++ ':' :: d.tag) ∧
    (d.name = d.image ++ ':' :: d.tag →
      Docker.key { name := d.image ++ ':' :: d.tag,
                   registry := DEFAULT_REGISTRY, image := d.image,
                   tag := d.tag, use_https := true } = d.key) := by
  obtain ⟨hname, hsel⟩ : entry.metadata.name = d.image ∧
      entry.metadata.selected_version = some d.tag := by
    cases hd : net.latestDigest with
    | error e => simp [Docker.lockWithMetadata, hd] at hok
    | ok od =>
      cases od with
      | none => simp [Docker.lockWithMetadata, hd] at hok
      | some digest =>
        obtain ⟨p, hp⟩ := fetchImageMetadata_isOk d net.meta
        obtain ⟨p1, p2⟩ := p
        simp only [Docker.lockWithMetadata, hd, hp] at hok
        rw [Except.ok.injEq] at hok
        subst hok
        exact ⟨rfl, rfl⟩
  have hfrom := dockerFrom_noreg d.image himg (':' :: d.tag) (some d.tag)
    (head_colon_c1 d.tag) (tagTail_colon d.tag htne htc)
  refine ⟨?_, rfl, fun h => by rw [Docker.key, Docker.key, ← h]⟩
  simp only [Docker.fromLockEntry, hsel, hname, hfrom]
  rfl

/-- C1 witness: the amended round trip evaluated on `postgres:15`. -/
theorem docker_roundtrip_amended_witness :
    Docker.fromLockEntry
        { metadata :=
            { name := str "postgres", selected_version := some (str "15"),
              resolved_version := some (str "sha256:d1"), timestamp := none,
              dep_type := str "docker",
              description :=
                str "Docker image postgres:15 from registry-1.docker.io" },
          lock := .strVal (str "sha256:d1") } =
      .ok (some { name := postgres15.image ++ ':' :: postgres15.tag,
                  registry := DEFAULT_REGISTRY, image := postgres15.image,
                  tag := postgres15.tag, use_https := true }) ∧
    (Docker.key { name := postgres15.image ++ ':' :: postgres15.tag,
                  registry := DEFAULT_REGISTRY, image := postgres15.image,
                  tag := postgres15.tag, use_https := true } =
      postgres15.image ++ ':' :: postgres15.tag) ∧
    (postgres15.name = postgres15.image ++ ':' :: postgres15.tag →
      Docker.key { name := postgres15.image ++ ':' :: postgres15.tag,
                   registry := DEFAULT_REGISTRY, image := postgres15.image,
                   tag := postgres15.tag, use_https := true } =
        postgres15.key) :=
  docker_roundtrip_amended postgres15 (digestNet (str "sha256:d1"))
    { metadata :=
        { name := str "postgres", selected_version := some (str "15"),
          resolved_version := some (str "sha256:d1"), timestamp := none,
          dep_type := str "docker",
          description :=
            str "Docker image postgres:15 from registry-1.docker.io" },
      lock := .strVal (str "sha256:d1") }
    (IsImageStr.single _ (by decide) (by decide)) (by decide) (by decide)
    rfl

end Uptix
